import Mathlib

/-!
Verification of the ham-radio-recorder repository.

Shallow embedding of:
  * `lib/storage` utilities (`addLog`, `upsertSchedule`, `computeDurationMin`,
    `buildWsUrl`, `buildFilename`);
  * the `WsClient` socket client (`disconnect`, `sendCommand`);
  * the background service-worker recording engine (`setState`, `resetState`,
    `executeRecordingFlow`, `stopRecording`, the backup stop-alarm handler and
    the offscreen message handlers).

Conventions: JavaScript strings are Lean `String`s; `undefined`/`null` fields
become `Option`; fallible awaited calls become `Except String` oracle fields of
an environment record; asynchronous I/O side effects (socket traffic, offscreen
messages, chrome.alarms and downloads) are recorded in an `Action` trace list.
-/

namespace HamRec

/-! ## lib/types — shared data types -/

/-- Log severity (`LogLevel` in lib/types). -/
inductive LogLevel
  | info
  | warn
  | error
deriving DecidableEq, Repr

/-- A stored log entry (`LogEntry` in lib/types); the `data?: unknown` payload
is modelled as an optional string. -/
structure LogEntry where
  timestamp : Nat
  level : LogLevel
  message : String
  data : Option String
deriving DecidableEq, Repr

/-- Schedule repetition kind (`"once" | "daily"`). -/
inductive ScheduleType
  | once
  | daily
deriving DecidableEq, Repr

/-- A scheduled recording entry (`Schedule` in lib/types). -/
structure Schedule where
  id : String
  startTime : String
  endTime : String
  frequency : Nat
  mode : String
  dataMode : Bool
  type : ScheduleType
  enabled : Bool
deriving DecidableEq, Repr

/-- Parameters passed to the recording flow (`RecordingParams`). -/
structure RecordingParams where
  frequency : Nat
  mode : String
  dataMode : Bool
  durationMin : Nat
deriving DecidableEq, Repr

/-- User-configurable settings (`Settings` in lib/types). -/
structure Settings where
  wsHost : String
  wsPort : Nat
  wsPath : String
  rigPort : Nat
  deviceId : String
  deviceLabel : String
  filenameTemplate : String
deriving DecidableEq, Repr

/-- `DEFAULT_SETTINGS` from lib/types. -/
def DEFAULT_SETTINGS : Settings :=
  { wsHost := "127.0.0.1"
    wsPort := 17800
    wsPath := "/ws"
    rigPort := 0
    deviceId := ""
    deviceLabel := ""
    filenameTemplate := "{date}_{time}_{freq}_{mode}" }

/-! ## lib/storage — log buffer -/

/-- `MAX_LOGS` from lib/storage. -/
def MAX_LOGS : Nat := 200

/-- Core of `addLog` from lib/storage applied to the stored list `logs`:
`logs.unshift(entry)` prepends, then `if (logs.length > MAX_LOGS) logs.length
= MAX_LOGS` truncates to the first `MAX_LOGS` entries.  (Timestamping and
console output are outside the stored-list semantics.) -/
def addLog (entry : LogEntry) (logs : List LogEntry) : List LogEntry :=
  let logs := entry :: logs
  if logs.length > MAX_LOGS then logs.take MAX_LOGS else logs

/-! ## lib/storage — schedules -/

/-- JavaScript `Array.prototype.findIndex`: index of the first element
satisfying the predicate (`none` models `-1`). -/
def findIndex (p : α → Bool) : List α → Option Nat
  | [] => none
  | a :: l => if p a then some 0 else (findIndex p l).map (· + 1)

/-- `upsertSchedule` from lib/storage applied to the stored list: JavaScript
`findIndex` locates the first entry with the same `id` (strict string
equality); on a hit the entry is overwritten in place, otherwise the new
schedule is pushed at the end. -/
def upsertSchedule (schedule : Schedule) (schedules : List Schedule) :
    List Schedule :=
  match findIndex (fun s => decide (s.id = schedule.id)) schedules with
  | some idx => schedules.set idx schedule
  | none => schedules ++ [schedule]

/-! ## lib/storage — computeDurationMin -/

/-- Split a character list on a separator character, mirroring
`String.prototype.split` with a single-character separator. -/
def splitOnChar (sep : Char) : List Char → List (List Char)
  | [] => [[]]
  | c :: cs =>
    let rest := splitOnChar sep cs
    if c = sep then
      [] :: rest
    else
      match rest with
      | [] => [[c]]
      | r :: rs => (c :: r) :: rs

/-- JavaScript `Number(s)` restricted to non-empty decimal-digit strings (the
shape produced by valid "HH:MM" components); any other input is `none`,
standing for `NaN`. -/
def parseNatDigits? (l : List Char) : Option Nat :=
  if l ≠ [] ∧ l.all (fun c => c.isDigit) then
    some (l.foldl (fun acc c => acc * 10 + (c.toNat - 48)) 0)
  else
    none

/-- `computeDurationMin` from lib/storage: split each "HH:MM" string on `":"`,
convert both components with `Number`, form minutes since midnight, take the
difference and add 24·60 when it is ≤ 0 (cross-midnight).  A component that
fails to parse is modelled as 0 (the claims only concern valid "HH:MM"
inputs, pinned down by parse hypotheses in the theorems). -/
def computeDurationMin (startTime endTime : String) : Int :=
  let sp := (splitOnChar ':' startTime.data).map
    (fun t => ((parseNatDigits? t).getD 0 : Int))
  let ep := (splitOnChar ':' endTime.data).map
    (fun t => ((parseNatDigits? t).getD 0 : Int))
  let sh := sp.getD 0 0
  let sm := sp.getD 1 0
  let eh := ep.getD 0 0
  let em := ep.getD 1 0
  let startMin := sh * 60 + sm
  let endMin := eh * 60 + em
  let diff := endMin - startMin
  if diff ≤ 0 then diff + 24 * 60 else diff

/-! ## lib/storage — buildWsUrl -/

/-- `buildWsUrl` from lib/storage. -/
def buildWsUrl (settings : Settings) : String :=
  let path := if settings.wsPath.startsWith "/" then settings.wsPath
              else "/" ++ settings.wsPath
  "ws://" ++ settings.wsHost ++ ":" ++ toString settings.wsPort ++ path

/-! ## lib/storage — buildFilename -/

/-- The components of a JavaScript `Date` that `buildFilename` reads
(`getMonth` is 0-based, as in JavaScript). -/
structure DateParts where
  year : Nat
  month : Nat
  day : Nat
  hours : Nat
  minutes : Nat
  seconds : Nat
deriving DecidableEq, Repr

/-- `String.prototype.padStart(len, c)`. -/
def padStart (s : String) (len : Nat) (c : Char) : String :=
  ⟨List.replicate (len - s.data.length) c ++ s.data⟩

/-- The local `pad` helper of `buildFilename` (`String(n).padStart(len, "0")`
with `len` defaulted to 2 at every call site). -/
def padNum (n : Nat) : String :=
  padStart (toString n) 2 '0'

/-- The `date` string of `buildFilename`: `YYYY` ++ padded month+1 ++ padded
day. -/
def dateStr (d : DateParts) : String :=
  toString d.year ++ padNum (d.month + 1) ++ padNum d.day

/-- The `time` string of `buildFilename`: padded hours, minutes, seconds. -/
def timeStr (d : DateParts) : String :=
  padNum d.hours ++ padNum d.minutes ++ padNum d.seconds

/-- First-occurrence replacement on character lists: the semantics of
JavaScript `String.prototype.replace` with a (non-empty) plain-string search
value and a replacement containing no `$` patterns. -/
def replaceFirstL (pat sub : List Char) : List Char → List Char
  | [] => []
  | c :: cs =>
    if pat.isPrefixOf (c :: cs) then
      sub ++ (c :: cs).drop pat.length
    else
      c :: replaceFirstL pat sub cs

/-- `String.prototype.replace(pat, sub)` (first occurrence only). -/
def replaceFirst (s pat sub : String) : String :=
  ⟨replaceFirstL pat.data sub.data s.data⟩

/-- `buildFilename` from lib/storage: four sequential single-occurrence
replacements of the placeholders. -/
def buildFilename (template : String) (freq : Nat) (mode : String)
    (d : DateParts) : String :=
  replaceFirst
    (replaceFirst
      (replaceFirst
        (replaceFirst template "{date}" (dateStr d))
        "{time}" (timeStr d))
      "{freq}" (toString freq))
    "{mode}" mode

/-! ## lib/ws-client — WsClient -/

/-- `WebSocket.readyState` values. -/
inductive ReadyState
  | connecting
  | open
  | closing
  | closed
deriving DecidableEq, Repr

/-- The part of a `WebSocket` object the client logic reads. -/
structure Socket where
  readyState : ReadyState
deriving DecidableEq, Repr

/-- An inbound wire message; only its `type` tag drives listener matching. -/
structure InMsg where
  type : String
deriving DecidableEq, Repr

/-- The mutable state of a `WsClient` instance.  Listener function objects are
identified by reference in the source (`indexOf` on the function value); we
model each as a unique numeric id. -/
structure WsClientState where
  ws : Option Socket
  messageListeners : List Nat
deriving DecidableEq, Repr

namespace WsClient

/-- `isConnected` getter: socket present and `readyState === OPEN`. -/
def isConnected (c : WsClientState) : Bool :=
  match c.ws with
  | some s => decide (s.readyState = ReadyState.open)
  | none => false

/-- Side effects of `disconnect` observable outside the client state. -/
inductive DiscAction
  | close (code : Nat) (reason : String)
deriving DecidableEq, Repr

/-- `disconnect` from lib/ws-client: if a socket is held, its handlers are
nulled (on the discarded object), it is closed with code 1000 when `OPEN` or
`CONNECTING`, and the reference is dropped; in every case the listener list is
cleared. -/
def disconnect (c : WsClientState) : WsClientState × List DiscAction :=
  match c.ws with
  | some s =>
    let acts :=
      if s.readyState = ReadyState.open ∨ s.readyState = ReadyState.connecting
      then [DiscAction.close 1000 "Client disconnect"]
      else []
    ({ ws := none, messageListeners := [] }, acts)
  | none => ({ c with messageListeners := [] }, [])

/-- A fresh listener id: larger than every id already registered (function
objects are always distinct references in the source). -/
def freshId (ls : List Nat) : Nat :=
  ls.foldr max 0 + 1

/-- `removeMessageListener`: `indexOf` then `splice(idx, 1)` — removes the
first occurrence only. -/
def removeMessageListener (ls : List Nat) (l : Nat) : List Nat :=
  match findIndex (fun x => x == l) ls with
  | some idx => ls.take idx ++ ls.drop (idx + 1)
  | none => ls

/-- The ways a `sendCommand` promise can reject. -/
inductive CmdError
  | notConnected
  | sendFailed (msg : String)
  | timeout (expectedType : String) (timeoutMs : Nat)
deriving DecidableEq, Repr

/-- `sendCommand` from lib/ws-client, run against `inbox`: the time-ordered
list of `(arrival ms, message)` pairs dispatched by the socket while the call
is pending.  The call registers a fresh one-shot listener, sends (a send
exception `sendThrow` rejects immediately), resolves with the first inbound
message whose `type` equals `expectedType` arriving strictly before
`timeoutMs`, and otherwise rejects with a timeout; `cleanup` removes the
listener on every path. -/
def sendCommand (c : WsClientState) (expectedType : String) (timeoutMs : Nat)
    (sendThrow : Option String) (inbox : List (Nat × InMsg)) :
    Except CmdError InMsg × WsClientState :=
  if ¬ isConnected c then
    (Except.error CmdError.notConnected, c)
  else
    let l := freshId c.messageListeners
    let during := c.messageListeners ++ [l]
    let after := removeMessageListener during l
    match sendThrow with
    | some m => (Except.error (CmdError.sendFailed m),
                 { c with messageListeners := after })
    | none =>
      match inbox.find?
          (fun tm => decide (tm.1 < timeoutMs) && decide (tm.2.type = expectedType)) with
      | some tm => (Except.ok tm.2, { c with messageListeners := after })
      | none => (Except.error (CmdError.timeout expectedType timeoutMs),
                 { c with messageListeners := after })

end WsClient

/-! ## background/index — recording engine -/

/-- `RecordingState` from lib/types. -/
inductive RecordingState
  | idle
  | connecting
  | setting_freq
  | setting_mode
  | recording
  | saving
  | error
deriving DecidableEq, Repr

/-- The module-level mutable state of the background service worker:
`currentState`, `currentFreq`, `currentMode`, `recordingElapsed`,
`recordingTotal`, `errorMessage`, and whether `progressInterval` is armed. -/
structure EngineState where
  currentState : RecordingState
  currentFreq : Option Nat
  currentMode : Option String
  recordingElapsed : Option Nat
  recordingTotal : Option Nat
  errorMessage : Option String
  progressActive : Bool
deriving DecidableEq, Repr

/-- `setState` from background/index: overwrite the state tag, set
`errorMessage` to the given message (or clear it), and null the progress
counters on entry to `idle`. -/
def setState (state : RecordingState) (error : Option String)
    (st : EngineState) : EngineState :=
  let st := { st with currentState := state, errorMessage := error }
  if state = RecordingState.idle then
    { st with recordingElapsed := none, recordingTotal := none }
  else st

/-- `resetState` from background/index. -/
def resetState (st : EngineState) : EngineState :=
  if st.currentState = RecordingState.error then
    setState RecordingState.idle none st
  else st

/-- The observable side effects of the engine (logs, socket and alarm I/O,
offscreen-context lifecycle and messages, downloads, the progress ticker). -/
inductive Action
  | log (level : LogLevel) (message : String)
  | wsConnect (url : String)
  | wsSendCommand (commandType : String)
  | wsDisconnect
  | delay (ms : Nat)
  | ensureOffscreen
  | closeOffscreen
  | sendToOffscreen (action : String)
  | alarmCreate (name : String)
  | alarmClear (name : String)
  | setProgressInterval
  | clearProgressTicker
  | download (filename : String)
deriving DecidableEq, Repr

/-- `STOP_ALARM` from background/index. -/
def STOP_ALARM : String := "ham-stop-recording"

/-- A structured `setFreqResult` / `setModeResult` response body. -/
structure CmdResult where
  success : Bool
  error : Option String
deriving DecidableEq, Repr

/-- Oracle for the awaited calls inside `executeRecordingFlow`: each field is
the outcome the corresponding `await` would produce (`Except.error` models a
thrown exception / rejected promise; for the two commands, `Except.ok`
carries the structured response). -/
structure FlowEnv where
  settingsResult : Except String Settings
  connectResult : Except String Unit
  setFreqResult : Except String CmdResult
  setModeResult : Except String CmdResult
  ensureOffscreenResult : Except String Unit
  sendStartResult : Except String Unit
deriving Repr

/-- `executeRecordingFlow` from background/index, step for step: error
auto-reset, busy guard, settings load, connect (5s/3/1s policy), `setFreq`
with the `success=false → throw` translation, 200ms settle delay, `setMode`
likewise, disconnect, then the recording-start `try` block (ensure offscreen,
device check, start message, backup stop alarm, progress ticker). -/
def executeRecordingFlow (env : FlowEnv) (params : RecordingParams)
    (st0 : EngineState) : EngineState × List Action :=
  -- auto-reset from error state so alarms can retry
  let st := if st0.currentState = RecordingState.error then resetState st0 else st0
  if st.currentState ≠ RecordingState.idle then
    (st, [Action.log LogLevel.warn "Recording flow skipped: already busy"])
  else
    match env.settingsResult with
    | Except.error _ =>
      (setState RecordingState.error (some "Failed to load settings") st,
       [Action.log LogLevel.error "Failed to load settings"])
    | Except.ok settings =>
      let wsUrl := buildWsUrl settings
      let acts := [Action.log LogLevel.info ("Starting recording flow: " ++ wsUrl)]
      -- Step 1: connect
      let st := setState RecordingState.connecting none st
      match env.connectResult with
      | Except.error msg =>
        (setState RecordingState.error (some ("WS connection failed: " ++ msg)) st,
         acts ++ [Action.wsConnect wsUrl,
                  Action.log LogLevel.error ("WebSocket connection failed: " ++ msg)])
      | Except.ok _ =>
        let acts := acts ++ [Action.wsConnect wsUrl,
                             Action.log LogLevel.info "WebSocket connected"]
        -- Step 2: setFreq
        let st := setState RecordingState.setting_freq none st
        let acts := acts ++ [Action.wsSendCommand "setFreq"]
        let freqRes : Except String Unit :=
          match env.setFreqResult with
          | Except.error m => Except.error m
          | Except.ok r =>
            if r.success then Except.ok ()
            else Except.error (r.error.getD "setFreq returned success=false")
        match freqRes with
        | Except.error msg =>
          (setState RecordingState.error (some ("setFreq failed: " ++ msg)) st,
           acts ++ [Action.log LogLevel.error ("setFreq failed: " ++ msg),
                    Action.wsDisconnect])
        | Except.ok _ =>
          let st := { st with currentFreq := some params.frequency }
          let acts := acts ++ [Action.log LogLevel.info "Frequency set",
                               Action.delay 200]
          -- Step 3: setMode
          let st := setState RecordingState.setting_mode none st
          let acts := acts ++ [Action.wsSendCommand "setMode"]
          let modeRes : Except String Unit :=
            match env.setModeResult with
            | Except.error m => Except.error m
            | Except.ok r =>
              if r.success then Except.ok ()
              else Except.error (r.error.getD "setMode returned success=false")
          match modeRes with
          | Except.error msg =>
            (setState RecordingState.error (some ("setMode failed: " ++ msg)) st,
             acts ++ [Action.log LogLevel.error ("setMode failed: " ++ msg),
                      Action.wsDisconnect])
          | Except.ok _ =>
            let st := { st with currentMode := some params.mode }
            let acts := acts ++ [Action.log LogLevel.info "Mode set",
                                 Action.wsDisconnect]
            -- Step 4: start recording via offscreen
            let st := setState RecordingState.recording none st
            let st := { st with recordingTotal := some (params.durationMin * 60),
                                recordingElapsed := some 0 }
            match env.ensureOffscreenResult with
            | Except.error m =>
              (setState RecordingState.error
                 (some ("Recording start failed: " ++ m)) st,
               acts ++ [Action.ensureOffscreen,
                        Action.log LogLevel.error ("Recording start failed: " ++ m),
                        Action.closeOffscreen])
            | Except.ok _ =>
              let acts := acts ++ [Action.ensureOffscreen]
              if settings.deviceId = "" then
                let m := "No audio device selected. Please configure in Options."
                (setState RecordingState.error
                   (some ("Recording start failed: " ++ m)) st,
                 acts ++ [Action.log LogLevel.error ("Recording start failed: " ++ m),
                          Action.closeOffscreen])
              else
                match env.sendStartResult with
                | Except.error m =>
                  (setState RecordingState.error
                     (some ("Recording start failed: " ++ m)) st,
                   acts ++ [Action.sendToOffscreen "startRecording",
                            Action.log LogLevel.error
                              ("Recording start failed: " ++ m),
                            Action.closeOffscreen])
                | Except.ok _ =>
                  ({ st with progressActive := true },
                   acts ++ [Action.sendToOffscreen "startRecording",
                            Action.log LogLevel.info "Recording started",
                            Action.alarmCreate STOP_ALARM,
                            Action.setProgressInterval])

/-- Oracle for the awaited calls inside `stopRecording` and the backup
stop-alarm handler: the outcome of the stop message send to the offscreen
document. -/
structure StopEnv where
  sendStopResult : Except String Unit
deriving Repr

/-- `stopRecording` from background/index.  `wait` stands for whatever the
event loop runs during the 2-second grace `await`: it receives the engine
state at the start of the wait and returns the state afterwards plus the
actions performed meanwhile (the identity pair models an unresponsive
offscreen document). -/
def stopRecording (env : StopEnv)
    (wait : EngineState → EngineState × List Action)
    (st : EngineState) : EngineState × List Action :=
  let acts := [Action.alarmClear STOP_ALARM, Action.clearProgressTicker]
  let st := { st with progressActive := false }
  if st.currentState = RecordingState.error then
    (setState RecordingState.idle none st,
     acts ++ [Action.log LogLevel.info "Force reset from error state",
              Action.wsDisconnect, Action.closeOffscreen])
  else if st.currentState ≠ RecordingState.recording then
    (st, acts ++ [Action.log LogLevel.warn "stopRecording called but not recording"])
  else
    match env.sendStopResult with
    | Except.ok _ =>
      let w := wait st
      let acts := acts ++ [Action.sendToOffscreen "stopRecording",
                           Action.log LogLevel.info "Stop signal sent to offscreen",
                           Action.delay 2000] ++ w.2
      if w.1.currentState = RecordingState.recording then
        (setState RecordingState.idle none w.1,
         acts ++ [Action.log LogLevel.info
                    "Force-closing offscreen and resetting state",
                  Action.closeOffscreen])
      else (w.1, acts)
    | Except.error m =>
      let acts := acts ++ [Action.sendToOffscreen "stopRecording",
                           Action.log LogLevel.warn
                             ("Offscreen unreachable, force-closing: " ++ m)]
      if st.currentState = RecordingState.recording then
        (setState RecordingState.idle none st,
         acts ++ [Action.log LogLevel.info
                    "Force-closing offscreen and resetting state",
                  Action.closeOffscreen])
      else (st, acts)

/-- The `STOP_ALARM` branch of the `chrome.alarms.onAlarm` listener; `wait`
as in `stopRecording`. -/
def stopAlarmHandler (env : StopEnv)
    (wait : EngineState → EngineState × List Action)
    (st : EngineState) : EngineState × List Action :=
  let acts := [Action.log LogLevel.info
                 "Backup stop alarm fired — force-stopping recording",
               Action.clearProgressTicker]
  let st := { st with progressActive := false }
  if st.currentState = RecordingState.recording then
    match env.sendStopResult with
    | Except.ok _ =>
      let w := wait st
      let acts := acts ++ [Action.sendToOffscreen "stopRecording",
                           Action.delay 2000] ++ w.2
      if w.1.currentState = RecordingState.recording then
        (setState RecordingState.idle none w.1,
         acts ++ [Action.closeOffscreen,
                  Action.log LogLevel.info
                    "Recording force-stopped by backup alarm"])
      else (w.1, acts)
    | Except.error _ =>
      -- the send threw: the 2s wait inside the try block is skipped
      let acts := acts ++ [Action.sendToOffscreen "stopRecording"]
      if st.currentState = RecordingState.recording then
        (setState RecordingState.idle none st,
         acts ++ [Action.closeOffscreen,
                  Action.log LogLevel.info
                    "Recording force-stopped by backup alarm"])
      else (st, acts)
  else (st, acts)

/-- A message from the offscreen document (`OffscreenResponse` in lib/types,
restricted to the fields the background handlers read). -/
inductive OffMsg
  | recordingResult (success : Bool) (error : Option String)
  | recordingProgress (elapsed total : Nat)
  | enumerateDevicesResult
  | recordingStatusResult
deriving DecidableEq, Repr

/-- Oracle for the awaited calls inside `handleRecordingResult`: the settings
load, the `chrome.downloads.download` outcome, and the wall-clock date used by
`buildFilename`. -/
structure ResultEnv where
  settingsResult : Except String Settings
  downloadResult : Except String Unit
  nowDate : DateParts
deriving Repr

/-- `handleRecordingResult` from background/index: clear the backup alarm and
ticker; on failure set `error` and close the offscreen document; on success
enter `saving`, build the filename, download (failure → `error`), close the
offscreen document (`finally`), and finish in `idle`. -/
def handleRecordingResult (env : ResultEnv) (success : Bool)
    (error : Option String) (st : EngineState) : EngineState × List Action :=
  let acts := [Action.alarmClear STOP_ALARM, Action.clearProgressTicker]
  let st := { st with progressActive := false }
  if ¬ success then
    (setState RecordingState.error
       (some ("Recording failed: " ++ error.getD "undefined")) st,
     acts ++ [Action.log LogLevel.error
                ("Recording failed: " ++ error.getD "undefined"),
              Action.closeOffscreen])
  else
    let st := setState RecordingState.saving none st
    match env.settingsResult with
    | Except.error m =>
      -- caught by the download try/catch; finally still closes the offscreen
      (setState RecordingState.error (some ("Download failed: " ++ m)) st,
       acts ++ [Action.log LogLevel.error ("Download failed: " ++ m),
                Action.closeOffscreen])
    | Except.ok settings =>
      let filename := buildFilename settings.filenameTemplate
        (st.currentFreq.getD 0) (st.currentMode.getD "UNKNOWN") env.nowDate
      match env.downloadResult with
      | Except.error m =>
        (setState RecordingState.error (some ("Download failed: " ++ m)) st,
         acts ++ [Action.download (filename ++ ".webm"),
                  Action.log LogLevel.error ("Download failed: " ++ m),
                  Action.closeOffscreen])
      | Except.ok _ =>
        (setState RecordingState.idle none st,
         acts ++ [Action.download (filename ++ ".webm"),
                  Action.log LogLevel.info "Recording saved",
                  Action.closeOffscreen,
                  Action.log LogLevel.info "Recording flow complete"])

/-- `handleOffscreenMessage` from background/index. -/
def handleOffscreenMessage (env : ResultEnv) (msg : OffMsg)
    (st : EngineState) : EngineState × List Action :=
  match msg with
  | OffMsg.recordingResult success error => handleRecordingResult env success error st
  | OffMsg.recordingProgress elapsed total =>
    ({ st with recordingElapsed := some elapsed, recordingTotal := some total }, [])
  | OffMsg.enumerateDevicesResult => (st, [])
  | OffMsg.recordingStatusResult => (st, [])

/-! ## Helper lemmas -/

theorem addLog_length_le (e : LogEntry) (l : List LogEntry) :
    (addLog e l).length ≤ MAX_LOGS := by
  unfold addLog
  dsimp only
  split
  · rw [List.length_take]
    omega
  · omega

theorem addLog_foldl_length_le (es : List LogEntry) (l : List LogEntry)
    (h : l.length ≤ MAX_LOGS) :
    (es.foldl (fun acc x => addLog x acc) l).length ≤ MAX_LOGS := by
  induction es generalizing l with
  | nil => simpa using h
  | cons x xs ih => exact ih (addLog x l) (addLog_length_le x l)

theorem get?_set_self (a : α) :
    ∀ (l : List α) (i : Nat), i < l.length → (l.set i a).get? i = some a
  | [], i, h => absurd h (by simp)
  | _ :: _, 0, _ => rfl
  | _ :: xs, i + 1, h => get?_set_self a xs i (by simpa using h)

theorem get?_set_other (a : α) :
    ∀ (l : List α) (i j : Nat), i ≠ j → (l.set i a).get? j = l.get? j
  | [], _, _, _ => rfl
  | _ :: _, 0, 0, h => absurd rfl h
  | _ :: _, 0, _ + 1, _ => rfl
  | _ :: _, _ + 1, 0, _ => rfl
  | _ :: xs, i + 1, j + 1, h =>
    get?_set_other a xs i j (fun e => h (by rw [e]))

theorem findIndex_eq_none_of_all {p : α → Bool} :
    ∀ l : List α, (∀ a ∈ l, p a = false) → findIndex p l = none := by
  intro l
  induction l with
  | nil => intro _; rfl
  | cons x xs ih =>
    intro h
    have hx : p x = false := h x (List.mem_cons_self x xs)
    have hxs := ih (fun a ha => h a (List.mem_cons_of_mem x ha))
    simp [findIndex, hx, hxs]

theorem findIndex_lt_length {p : α → Bool} :
    ∀ (l : List α) (i : Nat), findIndex p l = some i → i < l.length := by
  intro l
  induction l with
  | nil => intro i h; exact absurd h (by simp [findIndex])
  | cons x xs ih =>
    intro i h
    by_cases hx : p x = true
    · simp [findIndex, hx] at h
      simp only [List.length_cons]
      omega
    · simp [findIndex, hx] at h
      obtain ⟨j, hj, hi⟩ := h
      have := ih j hj
      simp only [List.length_cons]
      omega

theorem findIndex_append_self (l : Nat) :
    ∀ ls : List Nat, l ∉ ls →
      findIndex (fun x => x == l) (ls ++ [l]) = some ls.length := by
  intro ls
  induction ls with
  | nil => intro _; simp [findIndex]
  | cons x xs ih =>
    intro h
    have hx : x ≠ l := fun e => h (by simp [e])
    have hxs : l ∉ xs := fun hm => h (List.mem_cons_of_mem x hm)
    have hbx : (x == l) = false := by simpa using hx
    simp [findIndex, hbx, ih hxs]

theorem le_foldr_max (ls : List Nat) : ∀ x ∈ ls, x ≤ ls.foldr max 0 := by
  induction ls with
  | nil => intro x hx; exact absurd hx (by simp)
  | cons y ys ih =>
    intro x hx
    rcases List.mem_cons.1 hx with rfl | hm
    · exact Nat.le_max_left _ _
    · exact Nat.le_trans (ih x hm) (Nat.le_max_right _ _)

theorem freshId_not_mem (ls : List Nat) : WsClient.freshId ls ∉ ls := by
  intro hm
  have h := le_foldr_max ls _ hm
  simp only [WsClient.freshId] at h
  omega

theorem removeMessageListener_append (ls : List Nat) (l : Nat) (h : l ∉ ls) :
    WsClient.removeMessageListener (ls ++ [l]) l = ls := by
  unfold WsClient.removeMessageListener
  rw [findIndex_append_self l ls h]
  have ht : (ls ++ [l]).take ls.length = ls := List.take_left ls [l]
  have hd : (ls ++ [l]).drop (ls.length + 1) = [] := by
    apply List.drop_eq_nil_of_le
    simp
  simp [ht, hd]

/-! ## Claim theorems -/

/-- C7: `disconnect()` is idempotent — a second call leaves the client state
produced by the first call unchanged — and after any `disconnect()` call the
socket reference is cleared and the pending-listener list is empty, whatever
the prior client state was. -/
theorem disconnect_idempotent_clears (c : WsClientState) :
    (WsClient.disconnect (WsClient.disconnect c).1).1 = (WsClient.disconnect c).1
    ∧ (WsClient.disconnect c).1.ws = none
    ∧ (WsClient.disconnect c).1.messageListeners = [] := by
  cases hc : c.ws <;> simp [WsClient.disconnect, hc]

/-- C8: each `addLog` prepends the new entry and truncates to the first
`MAX_LOGS` (= 200) entries, so the stored list after any non-empty sequence
of `addLog` calls — from an arbitrary starting list — has length at most
200 and is newest-first. -/
theorem addLog_bounded_newest_first (e : LogEntry) (l : List LogEntry)
    (es : List LogEntry) (hes : es ≠ []) :
    addLog e l = (e :: l).take MAX_LOGS
    ∧ (addLog e l).length ≤ MAX_LOGS
    ∧ (es.foldl (fun acc x => addLog x acc) l).length ≤ MAX_LOGS := by
  refine ⟨?_, addLog_length_le e l, ?_⟩
  · unfold addLog
    dsimp only
    split
    · rfl
    · rw [List.take_of_length_le]
      omega
  · cases es with
    | nil => exact absurd rfl hes
    | cons x xs =>
      rw [List.foldl_cons]
      exact addLog_foldl_length_le xs (addLog x l) (addLog_length_le x l)

/-- C8 witness: a concrete non-empty call sequence. -/
theorem addLog_bounded_newest_first_witness :
    addLog ⟨5, LogLevel.info, "hello", none⟩ [⟨1, LogLevel.warn, "old", none⟩]
      = [⟨5, LogLevel.info, "hello", none⟩, ⟨1, LogLevel.warn, "old", none⟩]
    ∧ ([⟨7, LogLevel.error, "x", none⟩].foldl
        (fun acc x => addLog x acc)
        [⟨1, LogLevel.warn, "old", none⟩]).length ≤ MAX_LOGS := by
  have h := addLog_bounded_newest_first ⟨5, LogLevel.info, "hello", none⟩
    [⟨1, LogLevel.warn, "old", none⟩] [⟨7, LogLevel.error, "x", none⟩]
    (by decide)
  exact ⟨h.1.trans (by decide), h.2.2⟩

/-- C10: `upsertSchedule` either overwrites the first entry carrying the same
id — keeping the length and every other position unchanged — or, when no
entry has that id, appends the schedule at the end, growing the list by one. -/
theorem upsertSchedule_replace_or_append (s : Schedule) (l : List Schedule) :
    ((∀ t ∈ l, t.id ≠ s.id) →
      upsertSchedule s l = l ++ [s]
      ∧ (upsertSchedule s l).length = l.length + 1)
    ∧ (∀ idx, findIndex (fun t => decide (t.id = s.id)) l = some idx →
        (upsertSchedule s l).length = l.length
        ∧ (upsertSchedule s l).get? idx = some s
        ∧ ∀ j, j ≠ idx → (upsertSchedule s l).get? j = l.get? j) := by
  constructor
  · intro h
    have hnone : findIndex (fun t => decide (t.id = s.id)) l = none := by
      apply findIndex_eq_none_of_all
      intro a ha
      simpa using h a ha
    constructor
    · simp [upsertSchedule, hnone]
    · simp [upsertSchedule, hnone]
  · intro idx hidx
    have hlt : idx < l.length := findIndex_lt_length l idx hidx
    refine ⟨?_, ?_, ?_⟩
    · simp [upsertSchedule, hidx]
    · simp only [upsertSchedule, hidx]
      exact get?_set_self s l idx hlt
    · intro j hj
      simp only [upsertSchedule, hidx]
      exact get?_set_other s l idx j (fun e => hj e.symm)

/-- C10 witness: one append case and one in-place replacement. -/
theorem upsertSchedule_replace_or_append_witness :
    upsertSchedule ⟨"b", "01:00", "02:00", 7000, "USB", false, ScheduleType.once, true⟩
        [⟨"a", "00:00", "01:00", 14000, "LSB", false, ScheduleType.daily, true⟩]
      = [⟨"a", "00:00", "01:00", 14000, "LSB", false, ScheduleType.daily, true⟩,
         ⟨"b", "01:00", "02:00", 7000, "USB", false, ScheduleType.once, true⟩]
    ∧ (upsertSchedule ⟨"a", "03:00", "04:00", 21000, "CW", true, ScheduleType.once, false⟩
        [⟨"a", "00:00", "01:00", 14000, "LSB", false, ScheduleType.daily, true⟩]).get? 0
      = some ⟨"a", "03:00", "04:00", 21000, "CW", true, ScheduleType.once, false⟩ := by
  have h1 := (upsertSchedule_replace_or_append
    ⟨"b", "01:00", "02:00", 7000, "USB", false, ScheduleType.once, true⟩
    [⟨"a", "00:00", "01:00", 14000, "LSB", false, ScheduleType.daily, true⟩]).1
    (by decide)
  have h2 := (upsertSchedule_replace_or_append
    ⟨"a", "03:00", "04:00", 21000, "CW", true, ScheduleType.once, false⟩
    [⟨"a", "00:00", "01:00", 14000, "LSB", false, ScheduleType.daily, true⟩]).2
    0 (by decide)
  exact ⟨h1.1.trans (by decide), h2.2.1⟩

/-- C2: a recording-flow request while the engine state is neither `idle` nor
`error` returns with the state untouched and performs nothing but the single
busy log line — no channel, command, or offscreen-context I/O. -/
theorem executeRecordingFlow_busy_noop (env : FlowEnv)
    (params : RecordingParams) (st0 : EngineState)
    (h1 : st0.currentState ≠ RecordingState.idle)
    (h2 : st0.currentState ≠ RecordingState.error) :
    executeRecordingFlow env params st0
      = (st0, [Action.log LogLevel.warn "Recording flow skipped: already busy"])
    ∧ ∀ a ∈ (executeRecordingFlow env params st0).2,
        ∃ lvl msg, a = Action.log lvl msg := by
  have heq : executeRecordingFlow env params st0
      = (st0, [Action.log LogLevel.warn "Recording flow skipped: already busy"]) := by
    unfold executeRecordingFlow
    simp [h1, h2]
  refine ⟨heq, ?_⟩
  rw [heq]
  intro a ha
  simp at ha
  exact ⟨LogLevel.warn, "Recording flow skipped: already busy", ha⟩

/-- C2 witness: a busy request while `recording`. -/
theorem executeRecordingFlow_busy_noop_witness :
    executeRecordingFlow
        ⟨Except.ok DEFAULT_SETTINGS, Except.ok (), Except.ok ⟨true, none⟩,
         Except.ok ⟨true, none⟩, Except.ok (), Except.ok ()⟩
        ⟨145500000, "FM", false, 30⟩
        ⟨RecordingState.recording, some 145500000, some "FM", some 3, some 1800,
         none, true⟩
      = (⟨RecordingState.recording, some 145500000, some "FM", some 3, some 1800,
          none, true⟩,
         [Action.log LogLevel.warn "Recording flow skipped: already busy"]) := by
  exact (executeRecordingFlow_busy_noop _ _ _ (by decide) (by decide)).1

/-- C1 (amended): for valid "HH:MM" inputs, `computeDurationMin` is strictly
positive and is the unique value in (0, 1440] congruent to end − start modulo
1440; it therefore equals `(end − start) mod 1440` exactly when the two times
differ, while a same-time pair yields 1440 (a full day), not 0. -/
theorem computeDurationMin_pos_mod (s e : String) (sa sb ea eb : List Char)
    (sh sm eh em : Nat)
    (hs : splitOnChar ':' s.data = [sa, sb])
    (ha : parseNatDigits? sa = some sh)
    (hb : parseNatDigits? sb = some sm)
    (he : splitOnChar ':' e.data = [ea, eb])
    (hc : parseNatDigits? ea = some eh)
    (hd : parseNatDigits? eb = some em)
    (hsh : sh < 24) (hsm : sm < 60) (heh : eh < 24) (hem : em < 60) :
    0 < computeDurationMin s e
    ∧ computeDurationMin s e ≤ 1440
    ∧ computeDurationMin s e % 1440
        = (((eh : Int) * 60 + em) - ((sh : Int) * 60 + sm)) % 1440 := by
  unfold computeDurationMin
  rw [hs, he]
  simp only [List.map_cons, List.map_nil, ha, hb, hc, hd, Option.getD_some,
    List.getD_cons_zero, List.getD_cons_succ]
  split
  · refine ⟨by omega, by omega, ?_⟩
    omega
  · refine ⟨by omega, by omega, rfl⟩

/-- C1 witness: the cross-midnight example 23:30 → 00:15. -/
theorem computeDurationMin_pos_mod_witness :
    0 < computeDurationMin "23:30" "00:15"
    ∧ computeDurationMin "23:30" "00:15" ≤ 1440
    ∧ computeDurationMin "23:30" "00:15" % 1440
        = (((0 : Int) * 60 + 15) - ((23 : Int) * 60 + 30)) % 1440 :=
  computeDurationMin_pos_mod "23:30" "00:15"
    "23".data "30".data "00".data "15".data 23 30 0 15
    (by decide) (by decide) (by decide) (by decide) (by decide) (by decide)
    (by decide) (by decide) (by decide) (by decide)

/-- C1 counterexample: at a same-time pair the function returns 1440, while
(end − start) mod 1440 is 0 — so the claimed equality with the mod value
fails (it is incompatible with strict positivity there). -/
theorem computeDurationMin_sameTime_counterexample :
    computeDurationMin "12:00" "12:00" = 1440
    ∧ (((12 : Int) * 60 + 0) - ((12 : Int) * 60 + 0)) % 1440 = 0
    ∧ (1440 : Int) ≠ 0 := by
  refine ⟨by decide, by decide, by decide⟩

/-- C3: when the tune-frequency command resolves with `success:false`, the
flow ends in `error`, the channel disconnect is performed, the tune-mode
command is never sent, and the whole run is literally identical to a
transport failure of that command carrying the same message. -/
theorem setFreq_reported_failure (env : FlowEnv) (params : RecordingParams)
    (st0 : EngineState) (settings : Settings) (e : Option String)
    (h0 : st0.currentState = RecordingState.idle)
    (hs : env.settingsResult = Except.ok settings)
    (hc : env.connectResult = Except.ok ())
    (hf : env.setFreqResult = Except.ok ⟨false, e⟩) :
    (executeRecordingFlow env params st0).1.currentState = RecordingState.error
    ∧ Action.wsDisconnect ∈ (executeRecordingFlow env params st0).2
    ∧ (∀ a ∈ (executeRecordingFlow env params st0).2,
        a ≠ Action.wsSendCommand "setMode")
    ∧ executeRecordingFlow env params st0
        = executeRecordingFlow
            { env with setFreqResult :=
                Except.error (e.getD "setFreq returned success=false") }
            params st0 := by
  have hne : st0.currentState ≠ RecordingState.error := by
    rw [h0]; intro h; cases h
  have heq : executeRecordingFlow env params st0
      = (setState RecordingState.error
           (some ("setFreq failed: " ++ e.getD "setFreq returned success=false"))
           (setState RecordingState.setting_freq none
             (setState RecordingState.connecting none st0)),
         [Action.log LogLevel.info
            ("Starting recording flow: " ++ buildWsUrl settings),
          Action.wsConnect (buildWsUrl settings),
          Action.log LogLevel.info "WebSocket connected",
          Action.wsSendCommand "setFreq",
          Action.log LogLevel.error
            ("setFreq failed: " ++ e.getD "setFreq returned success=false"),
          Action.wsDisconnect]) := by
    unfold executeRecordingFlow
    simp [hne, h0, hs, hc, hf]
  have heq2 : executeRecordingFlow
      { env with setFreqResult :=
          Except.error (e.getD "setFreq returned success=false") }
      params st0
      = (setState RecordingState.error
           (some ("setFreq failed: " ++ e.getD "setFreq returned success=false"))
           (setState RecordingState.setting_freq none
             (setState RecordingState.connecting none st0)),
         [Action.log LogLevel.info
            ("Starting recording flow: " ++ buildWsUrl settings),
          Action.wsConnect (buildWsUrl settings),
          Action.log LogLevel.info "WebSocket connected",
          Action.wsSendCommand "setFreq",
          Action.log LogLevel.error
            ("setFreq failed: " ++ e.getD "setFreq returned success=false"),
          Action.wsDisconnect]) := by
    unfold executeRecordingFlow
    simp [hne, h0, hs, hc]
  refine ⟨?_, ?_, ?_, heq.trans heq2.symm⟩
  · rw [heq]
    simp [setState]
  · rw [heq]
    simp
  · rw [heq]
    intro a ha
    simp at ha
    rcases ha with h | h | h | h | h | h <;> simp [h]

/-- C3 witness: a concrete `success:false` response aborts the flow. -/
theorem setFreq_reported_failure_witness :
    (executeRecordingFlow
        ⟨Except.ok DEFAULT_SETTINGS, Except.ok (),
         Except.ok ⟨false, some "rig rejected"⟩, Except.ok ⟨true, none⟩,
         Except.ok (), Except.ok ()⟩
        ⟨145500000, "FM", false, 30⟩
        ⟨RecordingState.idle, none, none, none, none, none, false⟩).1.currentState
      = RecordingState.error
    ∧ Action.wsDisconnect ∈ (executeRecordingFlow
        ⟨Except.ok DEFAULT_SETTINGS, Except.ok (),
         Except.ok ⟨false, some "rig rejected"⟩, Except.ok ⟨true, none⟩,
         Except.ok (), Except.ok ()⟩
        ⟨145500000, "FM", false, 30⟩
        ⟨RecordingState.idle, none, none, none, none, none, false⟩).2
    ∧ ∀ a ∈ (executeRecordingFlow
        ⟨Except.ok DEFAULT_SETTINGS, Except.ok (),
         Except.ok ⟨false, some "rig rejected"⟩, Except.ok ⟨true, none⟩,
         Except.ok (), Except.ok ()⟩
        ⟨145500000, "FM", false, 30⟩
        ⟨RecordingState.idle, none, none, none, none, none, false⟩).2,
        a ≠ Action.wsSendCommand "setMode" := by
  have h := setFreq_reported_failure
    ⟨Except.ok DEFAULT_SETTINGS, Except.ok (),
     Except.ok ⟨false, some "rig rejected"⟩, Except.ok ⟨true, none⟩,
     Except.ok (), Except.ok ()⟩
    ⟨145500000, "FM", false, 30⟩
    ⟨RecordingState.idle, none, none, none, none, none, false⟩
    DEFAULT_SETTINGS (some "rig rejected") rfl rfl rfl rfl
  exact ⟨h.1, h.2.1, h.2.2.1⟩

/-- C4: the backup watchdog firing while `recording`, with the stop signal
delivered but the capture context never producing a result during the
2-second grace wait, force-closes the offscreen context and lands in `idle`
(with no error message), not in `error`. -/
theorem stopAlarm_unresponsive_idle (env : StopEnv)
    (wait : EngineState → EngineState × List Action) (st : EngineState)
    (h1 : st.currentState = RecordingState.recording)
    (h2 : env.sendStopResult = Except.ok ())
    (h3 : wait { st with progressActive := false }
        = ({ st with progressActive := false }, [])) :
    (stopAlarmHandler env wait st).1
      = setState RecordingState.idle none { st with progressActive := false }
    ∧ (stopAlarmHandler env wait st).1.currentState = RecordingState.idle
    ∧ (stopAlarmHandler env wait st).1.currentState ≠ RecordingState.error
    ∧ (stopAlarmHandler env wait st).1.errorMessage = none
    ∧ Action.closeOffscreen ∈ (stopAlarmHandler env wait st).2 := by
  have heq : (stopAlarmHandler env wait st)
      = (setState RecordingState.idle none { st with progressActive := false },
         [Action.log LogLevel.info
            "Backup stop alarm fired — force-stopping recording",
          Action.clearProgressTicker,
          Action.sendToOffscreen "stopRecording",
          Action.delay 2000,
          Action.closeOffscreen,
          Action.log LogLevel.info "Recording force-stopped by backup alarm"]) := by
    unfold stopAlarmHandler
    simp only [h1] at h3
    simp [h1, h2, h3]
  rw [heq]
  refine ⟨rfl, by simp [setState], by simp [setState], by simp [setState], by simp⟩

/-- C4 witness: concrete unresponsive capture context. -/
theorem stopAlarm_unresponsive_idle_witness :
    (stopAlarmHandler ⟨Except.ok ()⟩ (fun s => (s, []))
        ⟨RecordingState.recording, some 7000, some "USB", some 9, some 60,
         none, true⟩).1.currentState = RecordingState.idle
    ∧ Action.closeOffscreen ∈ (stopAlarmHandler ⟨Except.ok ()⟩
        (fun s => (s, []))
        ⟨RecordingState.recording, some 7000, some "USB", some 9, some 60,
         none, true⟩).2 := by
  have h := stopAlarm_unresponsive_idle ⟨Except.ok ()⟩ (fun s => (s, []))
    ⟨RecordingState.recording, some 7000, some "USB", some 9, some 60,
     none, true⟩ rfl rfl rfl
  exact ⟨h.2.1, h.2.2.2.2⟩

/-- C5: a `sendCommand` call on an open channel rejects with the timeout
error exactly when no inbound message with the expected type tag arrives
within the timeout; on every outcome (match or timeout) the one-shot listener
it registered is removed again, leaving the client state as before, so a
subsequent identical call behaves as if run fresh. -/
theorem sendCommand_timeout_and_cleanup (c : WsClientState) (ty : String)
    (timeoutMs : Nat) (inbox : List (Nat × InMsg))
    (hconn : WsClient.isConnected c = true) :
    (WsClient.sendCommand c ty timeoutMs none inbox).2 = c
    ∧ ((WsClient.sendCommand c ty timeoutMs none inbox).1
        = Except.error (WsClient.CmdError.timeout ty timeoutMs)
        ↔ ∀ tm ∈ inbox, ¬ (tm.1 < timeoutMs ∧ tm.2.type = ty))
    ∧ ∀ inbox2, WsClient.sendCommand
          (WsClient.sendCommand c ty timeoutMs none inbox).2 ty timeoutMs none inbox2
        = WsClient.sendCommand c ty timeoutMs none inbox2 := by
  have hrm : WsClient.removeMessageListener
      (c.messageListeners ++ [WsClient.freshId c.messageListeners])
      (WsClient.freshId c.messageListeners) = c.messageListeners :=
    removeMessageListener_append _ _ (freshId_not_mem c.messageListeners)
  have hstate : (WsClient.sendCommand c ty timeoutMs none inbox).2 = c := by
    unfold WsClient.sendCommand
    rw [if_neg (by simp [hconn])]
    dsimp only
    rw [hrm]
    cases hfind : inbox.find?
        (fun tm => decide (tm.1 < timeoutMs) && decide (tm.2.type = ty)) <;>
      simp [hfind]
  refine ⟨hstate, ?_, fun inbox2 => by rw [hstate]⟩
  unfold WsClient.sendCommand
  rw [if_neg (by simp [hconn])]
  dsimp only
  cases hfind : inbox.find?
      (fun tm => decide (tm.1 < timeoutMs) && decide (tm.2.type = ty)) with
  | none =>
    simp only [hfind]
    constructor
    · intro _ tm hm hmatch
      have := List.find?_eq_none.1 hfind tm hm
      simp at this
      exact absurd hmatch.2 (this hmatch.1)
    · intro _; trivial
  | some tm =>
    simp only [hfind]
    constructor
    · intro h; cases h
    · intro hall
      have hmem := List.mem_of_find?_eq_some hfind
      have hp := List.find?_some hfind
      simp at hp
      exact absurd ⟨hp.1, hp.2⟩ (hall tm hmem)

/-- C5 witness: a 5000ms call that only ever sees a non-matching message
times out and restores the listener list. -/
theorem sendCommand_timeout_and_cleanup_witness :
    (WsClient.sendCommand ⟨some ⟨ReadyState.open⟩, [3]⟩ "setFreqResult" 5000
        none [(100, ⟨"pong"⟩)]).2 = ⟨some ⟨ReadyState.open⟩, [3]⟩
    ∧ (WsClient.sendCommand ⟨some ⟨ReadyState.open⟩, [3]⟩ "setFreqResult" 5000
        none [(100, ⟨"pong"⟩)]).1
      = Except.error (WsClient.CmdError.timeout "setFreqResult" 5000)
    ∧ WsClient.sendCommand
        (WsClient.sendCommand ⟨some ⟨ReadyState.open⟩, [3]⟩ "setFreqResult" 5000
          none [(100, ⟨"pong"⟩)]).2 "setFreqResult" 5000 none [(40, ⟨"setFreqResult"⟩)]
      = WsClient.sendCommand ⟨some ⟨ReadyState.open⟩, [3]⟩ "setFreqResult" 5000
          none [(40, ⟨"setFreqResult"⟩)] := by
  have h := sendCommand_timeout_and_cleanup ⟨some ⟨ReadyState.open⟩, [3]⟩
    "setFreqResult" 5000 [(100, ⟨"pong"⟩)] (by decide)
  exact ⟨h.1, h.2.1.mpr (by decide), h.2.2 [(40, ⟨"setFreqResult"⟩)]⟩

theorem isPrefixOf_self_append (p l : List Char) :
    p.isPrefixOf (p ++ l) = true := by
  induction p with
  | nil => cases l <;> rfl
  | cons a p ih => simp [List.isPrefixOf, ih]

theorem replaceFirstL_no_occur (p sub : List Char) :
    ∀ l : List Char, (∀ i < l.length, p.isPrefixOf (l.drop i) = false) →
      replaceFirstL p sub l = l := by
  intro l
  induction l with
  | nil => intro _; rfl
  | cons c cs ih =>
    intro h
    have h0 : p.isPrefixOf (c :: cs) = false := by
      have := h 0 (by simp)
      simpa using this
    have hrest := ih (fun i hi => h (i + 1) (by simpa using Nat.succ_lt_succ hi))
    simp [replaceFirstL, h0, hrest]

theorem replaceFirstL_first_occur (p sub : List Char) (hp : p ≠ []) :
    ∀ l1 l2 : List Char,
      (∀ i < l1.length, p.isPrefixOf ((l1 ++ (p ++ l2)).drop i) = false) →
      replaceFirstL p sub (l1 ++ (p ++ l2)) = l1 ++ (sub ++ l2) := by
  intro l1
  induction l1 with
  | nil =>
    intro l2 _
    simp only [List.nil_append]
    cases hp' : p with
    | nil => exact absurd hp' hp
    | cons a p' =>
      subst hp'
      show (if (a :: p').isPrefixOf ((a :: p') ++ l2) then
              sub ++ ((a :: p') ++ l2).drop (a :: p').length
            else a :: replaceFirstL (a :: p') sub (p' ++ l2)) = sub ++ l2
      rw [if_pos (isPrefixOf_self_append (a :: p') l2), List.drop_left]
  | cons c l1 ih =>
    intro l2 h
    have h0 : p.isPrefixOf (c :: (l1 ++ (p ++ l2))) = false := by
      have := h 0 (by simp)
      simpa using this
    have hrest := ih l2 (fun i hi => h (i + 1) (by simpa using Nat.succ_lt_succ hi))
    simp [replaceFirstL, h0, hrest]

/-- Strings with equal character data are equal. -/
theorem eq_of_data_eq (a b : String) (h : a.data = b.data) : a = b :=
  String.ext h

/-- C9: string replacement touches only the first occurrence — generally,
`replaceFirstL` rewrites exactly the first occurrence of a pattern and leaves
everything after it verbatim — and concretely for `buildFilename`: in a
template of the shape `t1 ++ "\x7bdate\x7d" ++ t2 ++ "\x7bdate\x7d" ++ t3`
whose first `date` placeholder starts after `t1` and which contains no other
placeholder, the second `date` placeholder survives literally in the output
filename. -/
theorem buildFilename_first_occurrence_only
    (pat sub l1 l2 : List Char) (hp : pat ≠ [])
    (hgen : ∀ i < l1.length, pat.isPrefixOf ((l1 ++ (pat ++ l2)).drop i) = false)
    (t1 t2 t3 : String) (freq : Nat) (mode : String) (d : DateParts)
    (hfirst : ∀ i < t1.data.length,
      "{date}".data.isPrefixOf
        ((t1.data ++ ("{date}".data ++ (t2.data ++ ("{date}".data ++ t3.data)))).drop i)
        = false)
    (hno_time : ∀ i < (t1.data ++ ((dateStr d).data ++ (t2.data ++ ("{date}".data ++ t3.data)))).length,
      "{time}".data.isPrefixOf
        ((t1.data ++ ((dateStr d).data ++ (t2.data ++ ("{date}".data ++ t3.data)))).drop i)
        = false)
    (hno_freq : ∀ i < (t1.data ++ ((dateStr d).data ++ (t2.data ++ ("{date}".data ++ t3.data)))).length,
      "{freq}".data.isPrefixOf
        ((t1.data ++ ((dateStr d).data ++ (t2.data ++ ("{date}".data ++ t3.data)))).drop i)
        = false)
    (hno_mode : ∀ i < (t1.data ++ ((dateStr d).data ++ (t2.data ++ ("{date}".data ++ t3.data)))).length,
      "{mode}".data.isPrefixOf
        ((t1.data ++ ((dateStr d).data ++ (t2.data ++ ("{date}".data ++ t3.data)))).drop i)
        = false) :
    replaceFirstL pat sub (l1 ++ (pat ++ l2)) = l1 ++ (sub ++ l2)
    ∧ buildFilename (t1 ++ "{date}" ++ t2 ++ "{date}" ++ t3) freq mode d
        = t1 ++ dateStr d ++ t2 ++ "{date}" ++ t3 := by
  refine ⟨replaceFirstL_first_occur pat sub hp l1 l2 hgen, ?_⟩
  have hS : (t1 ++ "{date}" ++ t2 ++ "{date}" ++ t3).data
      = t1.data ++ ("{date}".data ++ (t2.data ++ ("{date}".data ++ t3.data))) := by
    simp [String.data_append]
  have h1 : replaceFirstL "{date}".data (dateStr d).data
        (t1 ++ "{date}" ++ t2 ++ "{date}" ++ t3).data
      = t1.data ++ ((dateStr d).data ++ (t2.data ++ ("{date}".data ++ t3.data))) := by
    rw [hS]
    exact replaceFirstL_first_occur _ _ (by decide) _ _ hfirst
  have h2 := replaceFirstL_no_occur "{time}".data (timeStr d).data _ hno_time
  have h3 := replaceFirstL_no_occur "{freq}".data (toString freq).data _ hno_freq
  have h4 := replaceFirstL_no_occur "{mode}".data mode.data _ hno_mode
  apply eq_of_data_eq
  show replaceFirstL "{mode}".data mode.data
      (replaceFirstL "{freq}".data (toString freq).data
        (replaceFirstL "{time}".data (timeStr d).data
          (replaceFirstL "{date}".data (dateStr d).data
            (t1 ++ "{date}" ++ t2 ++ "{date}" ++ t3).data)))
      = (t1 ++ dateStr d ++ t2 ++ "{date}" ++ t3).data
  rw [h1, h2, h3, h4]
  simp [String.data_append]

/-- C9 witness: the template `"A_\x7bdate\x7d_\x7bdate\x7d_B"` keeps its
second placeholder. -/
theorem buildFilename_first_occurrence_only_witness :
    replaceFirstL "xy".data "Z".data ("a".data ++ ("xy".data ++ "xy".data))
      = "a".data ++ ("Z".data ++ "xy".data)
    ∧ buildFilename ("A_" ++ "{date}" ++ "_" ++ "{date}" ++ "_B") 145500000 "FM"
        ⟨2026, 1, 21, 7, 0, 0⟩
      = "A_" ++ dateStr ⟨2026, 1, 21, 7, 0, 0⟩ ++ "_" ++ "{date}" ++ "_B" := by
  exact buildFilename_first_occurrence_only
    "xy".data "Z".data "a".data "xy".data (by decide) (by decide)
    "A_" "_" "_B" 145500000 "FM" ⟨2026, 1, 21, 7, 0, 0⟩
    (by decide) (by decide) (by decide) (by decide)

/-- The part of the C6 claim the code maintains: a non-null error message
implies the `error` state. -/
def InvErr (st : EngineState) : Prop :=
  st.errorMessage ≠ none → st.currentState = RecordingState.error

instance (st : EngineState) : Decidable (InvErr st) := by
  unfold InvErr
  infer_instance

/-- C6 (amended): "`errorMessage` is non-null only in the `error` state" is an
invariant preserved by every engine operation (flow, stop, watchdog, offscreen
message handling, reset); the elapsed/total counters, however, are cleared by
`setState` exactly on entry to `idle`, so outside `recording` they are only
guaranteed null in `idle` — they survive into `saving` and `error` (see the
counterexample). -/
theorem engine_errorMessage_only_in_error (st : EngineState) (h : InvErr st) :
    (∀ env params, InvErr (executeRecordingFlow env params st).1)
    ∧ (∀ env wait, (∀ s, InvErr s → InvErr (wait s).1) →
        InvErr (stopRecording env wait st).1
        ∧ InvErr (stopAlarmHandler env wait st).1)
    ∧ (∀ env msg, InvErr (handleOffscreenMessage env msg st).1)
    ∧ InvErr (resetState st)
    ∧ (∀ e s, (setState RecordingState.idle e s).recordingElapsed = none
        ∧ (setState RecordingState.idle e s).recordingTotal = none) := by
  have hidle : ∀ s : EngineState, InvErr (setState RecordingState.idle none s) := by
    intro s hne
    simp [setState] at hne
  have herr : ∀ (m : String) (s : EngineState),
      InvErr (setState RecordingState.error (some m) s) := by
    intro m s _
    simp [setState]
  refine ⟨?_, ?_, ?_, ?_, ?_⟩
  · intro env params
    unfold executeRecordingFlow
    rcases env with ⟨sr, cr, fr, mr, er, str⟩
    dsimp only
    by_cases h0 : st.currentState = RecordingState.error
    · have hreset : (if st.currentState = RecordingState.error then resetState st else st)
          = setState RecordingState.idle none st := by
        rw [if_pos h0]
        unfold resetState
        rw [if_pos h0]
      rw [hreset]
      have hbusy : ¬ (setState RecordingState.idle none st).currentState
          ≠ RecordingState.idle := by simp [setState]
      rw [if_neg hbusy]
      cases sr with
      | error e => exact herr _ _
      | ok settings =>
        cases cr with
        | error e => exact herr _ _
        | ok u =>
          cases fr with
          | error e => exact herr _ _
          | ok r =>
            dsimp only
            by_cases hs : r.success
            · rw [if_pos hs]
              cases mr with
              | error e => exact herr _ _
              | ok r2 =>
                dsimp only
                by_cases hs2 : r2.success
                · rw [if_pos hs2]
                  cases er with
                  | error e => exact herr _ _
                  | ok u2 =>
                    dsimp only
                    by_cases hdev : settings.deviceId = ""
                    · rw [if_pos hdev]
                      exact herr _ _
                    · rw [if_neg hdev]
                      cases str with
                      | error e => exact herr _ _
                      | ok u3 =>
                        intro hne
                        simp [setState] at hne
                · rw [if_neg hs2]
                  exact herr _ _
            · rw [if_neg hs]
              exact herr _ _
    · rw [if_neg h0]
      by_cases h1 : st.currentState ≠ RecordingState.idle
      · rw [if_pos h1]
        exact h
      · rw [if_neg h1]
        cases sr with
        | error e => exact herr _ _
        | ok settings =>
          cases cr with
          | error e => exact herr _ _
          | ok u =>
            cases fr with
            | error e => exact herr _ _
            | ok r =>
              dsimp only
              by_cases hs : r.success
              · rw [if_pos hs]
                cases mr with
                | error e => exact herr _ _
                | ok r2 =>
                  dsimp only
                  by_cases hs2 : r2.success
                  · rw [if_pos hs2]
                    cases er with
                    | error e => exact herr _ _
                    | ok u2 =>
                      dsimp only
                      by_cases hdev : settings.deviceId = ""
                      · rw [if_pos hdev]
                        exact herr _ _
                      · rw [if_neg hdev]
                        cases str with
                        | error e => exact herr _ _
                        | ok u3 =>
                          intro hne
                          simp [setState] at hne
                  · rw [if_neg hs2]
                    exact herr _ _
              · rw [if_neg hs]
                exact herr _ _
  · intro env wait hwait
    constructor
    · unfold stopRecording
      dsimp only
      by_cases he : ({ st with progressActive := false } : EngineState).currentState
          = RecordingState.error
      · rw [if_pos he]
        exact hidle _
      · rw [if_neg he]
        by_cases hr : ({ st with progressActive := false } : EngineState).currentState
            ≠ RecordingState.recording
        · rw [if_pos hr]
          intro hne
          have : st.errorMessage ≠ none := hne
          exact h this
        · rw [if_neg hr]
          cases hsr : env.sendStopResult with
          | ok u =>
            dsimp only
            by_cases hw : (wait { st with progressActive := false }).1.currentState
                = RecordingState.recording
            · rw [if_pos hw]
              exact hidle _
            · rw [if_neg hw]
              apply hwait
              intro hne
              exact h hne
          | error m =>
            dsimp only
            by_cases hr2 : ({ st with progressActive := false } : EngineState).currentState
                = RecordingState.recording
            · rw [if_pos hr2]
              exact hidle _
            · rw [if_neg hr2]
              intro hne
              exact h hne
    · unfold stopAlarmHandler
      dsimp only
      by_cases hr : ({ st with progressActive := false } : EngineState).currentState
          = RecordingState.recording
      · rw [if_pos hr]
        cases hsr : env.sendStopResult with
        | ok u =>
          dsimp only
          by_cases hw : (wait { st with progressActive := false }).1.currentState
              = RecordingState.recording
          · rw [if_pos hw]
            exact hidle _
          · rw [if_neg hw]
            apply hwait
            intro hne
            exact h hne
        | error m =>
          dsimp only
          by_cases hr2 : ({ st with progressActive := false } : EngineState).currentState
              = RecordingState.recording
          · rw [if_pos hr2]
            exact hidle _
          · rw [if_neg hr2]
            intro hne
            exact h hne
      · rw [if_neg hr]
        intro hne
        exact h hne
  · intro env msg
    cases msg with
    | recordingResult success error =>
      show InvErr (handleRecordingResult env success error st).1
      unfold handleRecordingResult
      dsimp only
      by_cases hs : ¬ success = true
      · rw [if_pos hs]
        exact herr _ _
      · rw [if_neg hs]
        cases env.settingsResult with
        | error m => exact herr _ _
        | ok settings =>
          dsimp only
          cases env.downloadResult with
          | error m => exact herr _ _
          | ok u => exact hidle _
    | recordingProgress elapsed total =>
      intro hne
      exact h hne
    | enumerateDevicesResult => exact h
    | recordingStatusResult => exact h
  · unfold resetState
    by_cases h0 : st.currentState = RecordingState.error
    · rw [if_pos h0]
      exact hidle _
    · rw [if_neg h0]
      exact h
  · intro e s
    constructor <;> simp [setState]

/-- C6 witness: the invariant holds across a concrete successful flow start
from the initial idle state. -/
theorem engine_errorMessage_only_in_error_witness :
    InvErr (executeRecordingFlow
      ⟨Except.ok { DEFAULT_SETTINGS with deviceId := "dev1" }, Except.ok (),
       Except.ok ⟨true, none⟩, Except.ok ⟨true, none⟩, Except.ok (), Except.ok ()⟩
      ⟨145500000, "FM", false, 30⟩
      ⟨RecordingState.idle, none, none, none, none, none, false⟩).1 :=
  (engine_errorMessage_only_in_error
    ⟨RecordingState.idle, none, none, none, none, none, false⟩ (by decide)).1
    ⟨Except.ok { DEFAULT_SETTINGS with deviceId := "dev1" }, Except.ok (),
     Except.ok ⟨true, none⟩, Except.ok ⟨true, none⟩, Except.ok (), Except.ok ()⟩
    ⟨145500000, "FM", false, 30⟩

/-- C6 counterexample: a successfully started flow (state `recording`,
elapsed = 0) followed by a failed capture result lands in `error` with
`recordingElapsed` and `recordingTotal` still non-null — refuting "elapsed
and total are null in every reachable state other than `recording`". -/
theorem engine_elapsed_nonnull_outside_recording_counterexample :
    ((handleOffscreenMessage
        ⟨Except.ok DEFAULT_SETTINGS, Except.ok (), ⟨2026, 0, 1, 0, 0, 0⟩⟩
        (OffMsg.recordingResult false (some "mic failure"))
        (executeRecordingFlow
          ⟨Except.ok { DEFAULT_SETTINGS with deviceId := "dev1" }, Except.ok (),
           Except.ok ⟨true, none⟩, Except.ok ⟨true, none⟩, Except.ok (),
           Except.ok ()⟩
          ⟨145500000, "FM", false, 30⟩
          ⟨RecordingState.idle, none, none, none, none, none, false⟩).1).1.currentState
      = RecordingState.error)
    ∧ ((handleOffscreenMessage
        ⟨Except.ok DEFAULT_SETTINGS, Except.ok (), ⟨2026, 0, 1, 0, 0, 0⟩⟩
        (OffMsg.recordingResult false (some "mic failure"))
        (executeRecordingFlow
          ⟨Except.ok { DEFAULT_SETTINGS with deviceId := "dev1" }, Except.ok (),
           Except.ok ⟨true, none⟩, Except.ok ⟨true, none⟩, Except.ok (),
           Except.ok ()⟩
          ⟨145500000, "FM", false, 30⟩
          ⟨RecordingState.idle, none, none, none, none, none, false⟩).1).1.recordingElapsed
      = some 0)
    ∧ ((handleOffscreenMessage
        ⟨Except.ok DEFAULT_SETTINGS, Except.ok (), ⟨2026, 0, 1, 0, 0, 0⟩⟩
        (OffMsg.recordingResult false (some "mic failure"))
        (executeRecordingFlow
          ⟨Except.ok { DEFAULT_SETTINGS with deviceId := "dev1" }, Except.ok (),
           Except.ok ⟨true, none⟩, Except.ok ⟨true, none⟩, Except.ok (),
           Except.ok ()⟩
          ⟨145500000, "FM", false, 30⟩
          ⟨RecordingState.idle, none, none, none, none, none, false⟩).1).1.recordingTotal
      = some 1800)
    ∧ some 0 ≠ (none : Option Nat) := by
  refine ⟨by decide, by decide, by decide, by decide⟩

end HamRec
